import Mathlib

/-!
Verification of the guided-diffusion configuration and DECA data-supply layer.

This file shallowly embeds the two Python source files of the repository,
`guided_diffusion/script_util.py` and
`guided_diffusion/dataloader/deca_datasets.py`, as executable Lean
definitions, and proves (or refutes) the specification claims about them.

Modelling conventions:
- Python floats are modelled as exact rationals (`ℚ`);
- numpy 1-D arrays are `List ℚ`, 2-D arrays (stacks of parameter rows) are
  `List (List ℚ)`, and image arrays indexed `[h][w][c]` are functions
  `ℕ → ℕ → ℕ → ℚ`;
- fallible Python code returns `Except PyError _`, with one `PyError`
  constructor per runtime error class that the modelled code can raise;
- external collaborators that the sources import but that are not part of
  the repository snapshot under `src/` (the crop/resize helpers of
  `img_util.py`, PIL images, the model classes) are taken as parameters or
  recorded as inert descriptors; code of this repository that the sources
  call but that is absent from `src/` (`gaussian_diffusion.py`,
  `respace.py`) is modelled from the spec and marked `Modelled from the
  spec:` in its doc comment.
-/

namespace GuidedDiffusion

/-- Runtime error classes of the modelled Python code.  `typeError` stands
for the `TypeError` the interpreter raises when `raise NotImplemented` is
executed (the `NotImplemented` constant is not an exception class);
`unboundLocalError` for reading a local variable on a path where it was
never assigned; `configurationError` is the spec's name for the
construction-time validation failures of the spec-modelled collaborators. -/
inductive PyError where
  | notImplementedError
  | valueError
  | typeError
  | unboundLocalError
  | zeroDivisionError
  | configurationError
  deriving DecidableEq, Repr

/-- The mean-prediction enumeration of `gaussian_diffusion.ModelMeanType`
as referenced by `script_util.py` (spec: PREDICT_NOISE = EPSILON,
PREDICT_SIGNAL = START_X). -/
inductive ModelMeanType where
  | EPSILON
  | START_X
  deriving DecidableEq, Repr

/-- The variance-mode enumeration of `gaussian_diffusion.ModelVarType` as
referenced by `script_util.py`. -/
inductive ModelVarType where
  | FIXED_LARGE
  | FIXED_SMALL
  | LEARNED_RANGE
  deriving DecidableEq, Repr

/-- The loss-type enumeration of `gaussian_diffusion.LossType` as
referenced by `script_util.py`. -/
inductive LossType where
  | MSE
  | RESCALED_MSE
  | KL
  | RESCALED_KL
  deriving DecidableEq, Repr

/-- `np.linspace start stop num`: `num` evenly spaced rationals from
`start` to `stop` inclusive. -/
def linspace (start stop : ℚ) (num : ℕ) : List ℚ :=
  if num ≤ 1 then List.replicate num start
  else (List.range num).map (fun i => start + (stop - start) * i / (num - 1))

/-- Modelled from the spec: `get_named_beta_schedule` of
`gaussian_diffusion.py`, which is not under `src/`.  Spec §4.1: `"linear"`
interpolates betas between two reference endpoints (0.0001 and 0.02)
scaled by `1000/num_steps`; an unknown schedule name fails with
`ConfigurationError`.  The `"cosine"` branch exists in the dispatch but its
beta values involve `cos²` and are not representable in `ℚ`; no claim
inspects them, so they are modelled by a placeholder constant sequence. -/
def get_named_beta_schedule (schedule_name : String) (num_diffusion_timesteps : ℕ) :
    Except PyError (List ℚ) :=
  if schedule_name = "linear" then
    let scale : ℚ := 1000 / num_diffusion_timesteps
    .ok (linspace (scale * (1 / 10000)) (scale * (2 / 100)) num_diffusion_timesteps)
  else if schedule_name = "cosine" then
    .ok (List.replicate num_diffusion_timesteps (999 / 1000))
  else
    .error .configurationError

/-- Modelled from the spec: the per-segment evenly spaced index selection
of `space_timesteps` (`respace.py`, not under `src/`).  From a segment of
`seg` original indices starting at `start`, retain `count` evenly spaced
ones; requesting more steps than the segment holds fails (spec §4.3). -/
def evenly_spaced (start seg count : ℕ) : Except PyError (List ℕ) :=
  if seg < count then .error .configurationError
  else if count = 0 then .ok []
  else if count = 1 then .ok [start]
  else .ok ((List.range count).map (fun i => start + i * (seg - 1) / (count - 1)))

/-- Modelled from the spec: `space_timesteps` of `respace.py`, which is not
under `src/`.  Spec §3/§4.3: the original horizon of `num_timesteps` steps
is split into `section_counts.length` equal-length segments and the i-th
segment contributes `section_counts[i]` evenly spaced indices; an empty
map or a non-divisible segment list fails with `ConfigurationError`. -/
def space_timesteps (num_timesteps : ℕ) (section_counts : List ℕ) :
    Except PyError (List ℕ) :=
  if section_counts = [] then .error .configurationError
  else if num_timesteps % section_counts.length ≠ 0 then .error .configurationError
  else
    let seg := num_timesteps / section_counts.length
    (section_counts.enum.mapM (fun p => evenly_spaced (p.1 * seg) seg p.2)).map
      List.flatten

/-- Modelled from the spec: the surface of a constructed `SpacedDiffusion`
(`respace.py`, not under `src/`) — the immutable diffusion-configuration
record of spec §3, holding the retained timestep subset and the
construction arguments.  The internal respaced-beta derivation of spec
§4.3 is not needed by any claim and is not modelled. -/
structure SpacedDiffusionDesc where
  use_timesteps : List ℕ
  betas : List ℚ
  model_mean_type : ModelMeanType
  model_var_type : ModelVarType
  loss_type : LossType
  rescale_timesteps : Bool
  deriving DecidableEq, Repr

/-- The flat diffusion-configuration record read by
`create_gaussian_diffusion` (`script_util.py` lines 119-146). -/
structure DiffusionCfg where
  noise_schedule : String
  diffusion_steps : ℕ
  use_kl : Bool
  rescale_learned_sigmas : Bool
  timestep_respacing : String
  predict_xstart : Bool
  sigma_small : Bool
  learn_sigma : Bool
  rescale_timesteps : Bool
  deriving DecidableEq, Repr

/-- The loss-type selection of `create_gaussian_diffusion`
(`script_util.py` lines 121-126): `use_kl` wins, then
`rescale_learned_sigmas`, else plain MSE. -/
def select_loss_type (use_kl rescale_learned_sigmas : Bool) : LossType :=
  if use_kl then LossType.RESCALED_KL
  else if rescale_learned_sigmas then LossType.RESCALED_MSE
  else LossType.MSE

/-- Embedding of `create_gaussian_diffusion` (`script_util.py` lines
119-146).  Python's scoping is modelled faithfully: the local
`timestep_respacing` is assigned only inside the
`if not cfg.timestep_respacing` branch (line 127-128: an empty string is
the only falsy value of this string field), so on the branch where
`cfg.timestep_respacing` is non-empty the later read of the local (line
130) raises `UnboundLocalError`; the unassigned local is modelled as an
`Option` that is `none` on that path. -/
def create_gaussian_diffusion (cfg : DiffusionCfg) :
    Except PyError SpacedDiffusionDesc :=
  match get_named_beta_schedule cfg.noise_schedule cfg.diffusion_steps with
  | .error e => .error e
  | .ok betas =>
    let loss_type := select_loss_type cfg.use_kl cfg.rescale_learned_sigmas
    match (if cfg.timestep_respacing = "" then
             some [cfg.diffusion_steps]
           else none : Option (List ℕ)) with
    | none => .error .unboundLocalError
    | some timestep_respacing =>
      match space_timesteps cfg.diffusion_steps timestep_respacing with
      | .error e => .error e
      | .ok use_ts =>
        .ok { use_timesteps := use_ts
              betas := betas
              model_mean_type :=
                if ¬ cfg.predict_xstart then ModelMeanType.EPSILON
                else ModelMeanType.START_X
              model_var_type :=
                if ¬ cfg.learn_sigma then
                  (if ¬ cfg.sigma_small then ModelVarType.FIXED_LARGE
                   else ModelVarType.FIXED_SMALL)
                else ModelVarType.LEARNED_RANGE
              loss_type := loss_type
              rescale_timesteps := cfg.rescale_timesteps }

/-- Python's `str.split(",")` on the character list of a string: split at
every comma, keeping empty pieces (so `"".split(",") = [""]` and
`"1,".split(",") = ["1", ""]`). -/
def py_split_comma : List Char → List (List Char)
  | [] => [[]]
  | c :: cs =>
    let rest := py_split_comma cs
    if c = ',' then [] :: rest
    else (c :: rest.headD []) :: rest.tail

/-- Value of a list of decimal digit characters, `none` when the list is
empty or holds a non-digit. -/
def dec_digits? : List Char → Option ℕ
  | [] => none
  | [c] => if c.isDigit then some (c.toNat - 48) else none
  | c :: cs =>
    match (if c.isDigit then some (c.toNat - 48) else none), dec_digits? cs with
    | some d, some v => some (d * 10 ^ cs.length + v)
    | _, _ => none

/-- Python's `int(s)` on a decimal numeral: optional surrounding blanks,
an optional sign, then decimal digits; anything else raises `ValueError`.
(Exotic accepted forms — underscores between digits, non-ASCII digits —
are outside the configuration surface and are not modelled.) -/
def py_int (s : List Char) : Except PyError ℤ :=
  let t := (s.dropWhile (· = ' ')).reverse.dropWhile (· = ' ') |>.reverse
  match t with
  | '-' :: ds =>
    match dec_digits? ds with
    | some v => .ok (-(v : ℤ))
    | none => .error .valueError
  | '+' :: ds =>
    match dec_digits? ds with
    | some v => .ok (v : ℤ)
    | none => .error .valueError
  | ds =>
    match dec_digits? ds with
    | some v => .ok (v : ℤ)
    | none => .error .valueError

/-- The flat image-model configuration read by `create_model`
(`script_util.py` lines 57-117). -/
structure ImgModelCfg where
  image_size : ℤ
  arch : String
  channel_mult : String
  attention_resolutions : String
  in_channels : ℤ
  num_channels : ℤ
  out_channels : ℤ
  num_res_blocks : ℤ
  dropout : ℚ
  class_cond : Bool
  use_checkpoint : Bool
  num_heads : ℤ
  num_head_channels : ℤ
  num_heads_upsample : ℤ
  use_scale_shift_norm : Bool
  resblock_updown : Bool
  use_new_attention_order : Bool
  condition_dim : ℤ
  deriving DecidableEq, Repr

/-- Descriptor of the constructed external UNet model (`UNetModel` /
`UNetModelCondition` live in `models/unet_deca.py`, outside this core):
the constructor arguments `create_model` passes, recorded inertly. -/
structure UNetDesc where
  image_size : ℤ
  in_channels : ℤ
  model_channels : ℤ
  out_channels : ℤ
  num_res_blocks : ℤ
  attention_resolutions : List ℤ
  dropout : ℚ
  channel_mult : List ℚ
  num_classes : Option ℤ
  use_checkpoint : Bool
  num_heads : ℤ
  num_head_channels : ℤ
  num_heads_upsample : ℤ
  use_scale_shift_norm : Bool
  resblock_updown : Bool
  use_new_attention_order : Bool
  condition : Bool
  condition_dim : Option ℤ
  deriving DecidableEq, Repr

/-- `NUM_CLASSES` (`script_util.py` line 8). -/
def NUM_CLASSES : ℤ := 1000

/-- The channel-multiplier selection of `create_model` (`script_util.py`
lines 58-70): hard-coded tuples for the four supported image sizes when
the configured string is empty (`ValueError` otherwise), else the
comma-separated string parsed with Python `int`. -/
def parse_channel_mult (cfg : ImgModelCfg) : Except PyError (List ℚ) :=
  if cfg.channel_mult = "" then
    if cfg.image_size = 512 then .ok [1/2, 1, 1, 2, 2, 4, 4]
    else if cfg.image_size = 256 then .ok [1, 1, 2, 2, 4, 4]
    else if cfg.image_size = 128 then .ok [1, 1, 2, 3, 4]
    else if cfg.image_size = 64 then .ok [1, 2, 3, 4]
    else .error .valueError
  else
    ((py_split_comma cfg.channel_mult.data).mapM py_int).map
      (List.map (fun z : ℤ => (z : ℚ)))

/-- The attention-downsampling computation of `create_model`
(`script_util.py` lines 72-74): `image_size // int(res)` for each
comma-separated token, with Python floor division (a zero token raises
`ZeroDivisionError`). -/
def parse_attention_ds (cfg : ImgModelCfg) : Except PyError (List ℤ) :=
  (py_split_comma cfg.attention_resolutions.data).mapM (fun s => do
    let r ← py_int s
    if r = 0 then .error .zeroDivisionError
    else .ok (Int.fdiv cfg.image_size r))

/-- Embedding of `create_model` (`script_util.py` lines 57-117): resolve
the channel multipliers, then the attention resolutions, then dispatch on
the architecture tag, failing with `NotImplementedError` for a tag outside
`{"UNet", "UNetCond"}`. -/
def create_model (cfg : ImgModelCfg) : Except PyError UNetDesc :=
  match parse_channel_mult cfg with
  | .error e => .error e
  | .ok channel_mult =>
    match parse_attention_ds cfg with
    | .error e => .error e
    | .ok attention_ds =>
      if cfg.arch = "UNet" then
        .ok { image_size := cfg.image_size
              in_channels := cfg.in_channels
              model_channels := cfg.num_channels
              out_channels := cfg.out_channels
              num_res_blocks := cfg.num_res_blocks
              attention_resolutions := attention_ds
              dropout := cfg.dropout
              channel_mult := channel_mult
              num_classes := if cfg.class_cond then some NUM_CLASSES else none
              use_checkpoint := cfg.use_checkpoint
              num_heads := cfg.num_heads
              num_head_channels := cfg.num_head_channels
              num_heads_upsample := cfg.num_heads_upsample
              use_scale_shift_norm := cfg.use_scale_shift_norm
              resblock_updown := cfg.resblock_updown
              use_new_attention_order := cfg.use_new_attention_order
              condition := false
              condition_dim := none }
      else if cfg.arch = "UNetCond" then
        .ok { image_size := cfg.image_size
              in_channels := cfg.in_channels
              model_channels := cfg.num_channels
              out_channels := cfg.out_channels
              num_res_blocks := cfg.num_res_blocks
              attention_resolutions := attention_ds
              dropout := cfg.dropout
              channel_mult := channel_mult
              num_classes := if cfg.class_cond then some NUM_CLASSES else none
              use_checkpoint := cfg.use_checkpoint
              num_heads := cfg.num_heads
              num_head_channels := cfg.num_head_channels
              num_heads_upsample := cfg.num_heads_upsample
              use_scale_shift_norm := cfg.use_scale_shift_norm
              resblock_updown := cfg.resblock_updown
              use_new_attention_order := cfg.use_new_attention_order
              condition := true
              condition_dim := some cfg.condition_dim }
      else .error .notImplementedError

/-- The flat parameter-model configuration read by `create_param_model`
(`script_util.py` lines 28-55). -/
structure ParamModelCfg where
  deca_cond : Bool
  arch : String
  in_channels : ℤ
  out_channels : ℤ
  model_channels : ℤ
  num_layers : ℤ
  use_checkpoint : Bool
  use_scale_shift_norm : Bool
  deriving DecidableEq, Repr

/-- Descriptor of the constructed external dense parameter model
(`DECADenseCond` / `DenseDDPM` / `AutoEncoderDPM` live in
`models/dense_deca.py`, outside this core): which class was constructed
with which arguments. -/
inductive ParamModelDesc where
  | DECADenseCond (in_channels out_channels model_channels : ℤ)
      (use_checkpoint use_scale_shift_norm : Bool)
  | DenseDDPM (in_channels model_channels num_layers : ℤ)
      (use_checkpoint : Bool)
  | AutoEncoderDPM (in_channels out_channels model_channels num_layers : ℤ)
      (use_checkpoint : Bool)
  deriving DecidableEq, Repr

/-- Embedding of `create_param_model` (`script_util.py` lines 28-55):
`deca_cond` selects `DECADenseCond`; otherwise the architecture tag picks
`DenseDDPM` or `AutoEncoderDPM`, and any other tag fails with
`NotImplementedError`. -/
def create_param_model (cfg : ParamModelCfg) : Except PyError ParamModelDesc :=
  if cfg.deca_cond then
    .ok (.DECADenseCond cfg.in_channels cfg.out_channels cfg.model_channels
      cfg.use_checkpoint cfg.use_scale_shift_norm)
  else
    if cfg.arch = "magenta" then
      .ok (.DenseDDPM cfg.in_channels cfg.model_channels cfg.num_layers
        cfg.use_checkpoint)
    else if cfg.arch = "autoenc" then
      .ok (.AutoEncoderDPM cfg.in_channels cfg.out_channels cfg.model_channels
        cfg.num_layers cfg.use_checkpoint)
    else .error .notImplementedError

/-- `np.min(arr, axis=0)` on a stack of rows: the componentwise minimum,
computed by folding a pointwise `min` over the rows. -/
def np_min_axis0 : List (List ℚ) → List ℚ
  | [] => []
  | r :: rs => rs.foldl (fun acc row => List.zipWith min acc row) r

/-- `np.max(arr, axis=0)` on a stack of rows: the componentwise maximum. -/
def np_max_axis0 : List (List ℚ) → List ℚ
  | [] => []
  | r :: rs => rs.foldl (fun acc row => List.zipWith max acc row) r

/-- The componentwise linear map of `normalize` (`deca_datasets.py` line
50) applied to one row against the `min_val`/`max_val` rows:
`((b - a) * (x - min) / (max - min)) + a` in each coordinate. -/
def normalize_row (arr min_val max_val : List ℚ) (a b : ℚ) : List ℚ :=
  List.zipWith (fun x mM => (b - a) * (x - mM.1) / (mM.2 - mM.1) + a) arr
    (min_val.zip max_val)

/-- Embedding of `normalize` (`deca_datasets.py` lines 38-51) on a stack
of rows (`arr` has shape `(N, params_dim)` and `min_val`/`max_val`
broadcast over the rows): when both `min_val` and `max_val` are `None`
they are computed as the columnwise extrema of `arr`; the result triple is
`(arr_norm, min_val, max_val)`.  (Passing exactly one `None` is a Python
`TypeError` on line 50 and is not exercised by any claim; it is modelled
by the `Option.getD []` truncation.) -/
def normalize (arr : List (List ℚ)) (min_val max_val : Option (List ℚ))
    (a b : ℚ) : List (List ℚ) × List ℚ × List ℚ :=
  if max_val = none ∧ min_val = none then
    let mx := np_max_axis0 arr
    let mn := np_min_axis0 arr
    (arr.map (fun row => normalize_row row mn mx a b), mn, mx)
  else
    let mn := min_val.getD []
    let mx := max_val.getD []
    (arr.map (fun row => normalize_row row mn mx a b), mn, mx)

/-- The componentwise inverse map of `denormalize` (`deca_datasets.py`
line 54) applied to one row: `(((y - a) * (max - min)) / (b - a)) + min`
in each coordinate. -/
def denormalize_row (arr_norm min_val max_val : List ℚ) (a b : ℚ) : List ℚ :=
  List.zipWith (fun y mM => (y - a) * (mM.2 - mM.1) / (b - a) + mM.1) arr_norm
    (min_val.zip max_val)

/-- Embedding of `denormalize` (`deca_datasets.py` lines 53-55) on a stack
of rows. -/
def denormalize (arr_norm : List (List ℚ)) (min_val max_val : List ℚ)
    (a b : ℚ) : List (List ℚ) :=
  arr_norm.map (fun row => denormalize_row row min_val max_val a b)

/-- The DECA parameter groups of one training image, in the order the
sources read them (`params_key = ['shape', 'pose', 'exp', 'cam']`). -/
structure DecaImageParams where
  shape : List ℚ
  pose : List ℚ
  exp : List ℚ
  cam : List ℚ
  deriving DecidableEq, Repr

/-- The concatenated parameter row of one image, in the order
shape, pose, exp, cam (`deca_datasets.py` lines 77-80 and line 204). -/
def concat_params (p : DecaImageParams) : List ℚ :=
  p.shape ++ p.pose ++ p.exp ++ p.cam

/-- The `all_params` stack built by `load_deca_params` (`deca_datasets.py`
lines 75-81): one concatenated row per training image. -/
def stack_all_params (imgs : List DecaImageParams) : List (List ℚ) :=
  imgs.map concat_params

/-- The `min_val` entry that `load_deca_params` stores under
`deca_params['normalize']` (`deca_datasets.py` lines 82-83): the second
component of `normalize(arr=all_params, a=-bound, b=bound)` with both
extrema left to be computed. -/
def load_deca_min_val (imgs : List DecaImageParams) (bound : ℚ) : List ℚ :=
  (normalize (stack_all_params imgs) none none (-bound) bound).2.1

/-- The `max_val` entry that `load_deca_params` stores under
`deca_params['normalize']` (`deca_datasets.py` lines 82-83). -/
def load_deca_max_val (imgs : List DecaImageParams) (bound : ℚ) : List ℚ :=
  (normalize (stack_all_params imgs) none none (-bound) bound).2.2

/-- An image array indexed `[h][w][c]`, as produced by the augmentation
helpers on a loaded RGB image. -/
abbrev ImgArr : Type := ℕ → ℕ → ℕ → ℚ

/-- `np.transpose(arr, [2, 0, 1])`: move the channel axis first, so the
output indexed `[c][h][w]` reads the input at `[h][w][c]`
(`deca_datasets.py` line 227). -/
def np_transpose_201 (arr : ImgArr) : ImgArr :=
  fun c h w => arr h w c

/-- `np.concatenate((x, y), axis=2)` for an `x` with `cx` channels
(`deca_datasets.py` line 223). -/
def np_concatenate_axis2 (x y : ImgArr) (cx : ℕ) : ImgArr :=
  fun h w c => if c < cx then x h w c else y h w (c - cx)

/-- The pixel rescale `(arr / 127.5) - 1` applied to an augmented image
(`deca_datasets.py` lines 198 and 217). -/
def img_rescale (arr : ImgArr) : ImgArr :=
  fun h w c => arr h w c / 127.5 - 1

/-- `arr[:, ::-1]` on an `[h][w][c]` array of width `W`: reverse the
width axis (`deca_datasets.py` lines 241 and 243). -/
def np_flip_axis1 (W : ℕ) (arr : ImgArr) : ImgArr :=
  fun h w c => arr h (W - 1 - w) c

/-- Embedding of `DECADataset.augmentation` (`deca_datasets.py` lines
229-248).  The three resize helpers live in `img_util.py`, outside this
core, and are taken as parameters, as are the PIL image type `Pil`, the
image width `W` seen by the flip, and the outcome `rand_lt_half` of the
`random.random() < 0.5` draw.  Both `else` branches execute
`raise NotImplemented`, which the interpreter surfaces as a `TypeError`
(`NotImplemented` is not an exception class), modelled as
`PyError.typeError`.  Note the flip chain is a single `if/elif` chain: for
`augment_mode == 'random_flip'` with a failed coin toss no earlier branch
matches and the final `else` raises as well. -/
def augmentation {Pil : Type} (resize_mode : String) (augment_mode : Option String)
    (random_crop_arr center_crop_arr resize_arr : Pil → ℕ → ImgArr)
    (W : ℕ) (rand_lt_half : Bool) (resolution : ℕ) (pil_image : Pil) :
    Except PyError ImgArr :=
  match (if resize_mode = "random_crop" then some (random_crop_arr pil_image resolution)
         else if resize_mode = "center_crop" then some (center_crop_arr pil_image resolution)
         else if resize_mode = "resize" then some (resize_arr pil_image resolution)
         else none : Option ImgArr) with
  | none => .error .typeError
  | some arr =>
    if augment_mode = some "random_flip" ∧ rand_lt_half then
      .ok (np_flip_axis1 W arr)
    else if augment_mode = some "flip" then
      .ok (np_flip_axis1 W arr)
    else if augment_mode = none then
      .ok arr
    else .error .typeError

/-- The input-composition step of `DECADataset.__getitem__`
(`deca_datasets.py` lines 196-198, 214-227): both the raw image and the
uv-detail-normals image have already been augmented; each is rescaled by
`(arr / 127.5) - 1`; the `in_image` mode then selects the raw image alone
or its channelwise concatenation with the uv-detail-normals image
(`c_raw` channels in the raw image), any other mode raising
`NotImplementedError`; the selected array is returned transposed to
`[c][h][w]`. -/
def getitem_image (in_image : String) (raw_img uvdn : ImgArr) (c_raw : ℕ) :
    Except PyError ImgArr :=
  let raw' := img_rescale raw_img
  let uvdn' := img_rescale uvdn
  if in_image = "raw" then .ok (np_transpose_201 raw')
  else if in_image = "raw+uvdn" then
    .ok (np_transpose_201 (np_concatenate_axis2 raw' uvdn' c_raw))
  else .error .notImplementedError

/-- The conditioning-vector step of `DECADataset.__getitem__`
(`deca_datasets.py` lines 200-208): the image's four parameter groups are
concatenated in the order shape, pose, exp, cam, lifted to a 1-row stack
(`params[None, :]`), normalized against the supplier's global extrema with
`a = -bound, b = bound`, and row 0 of the result is returned. -/
def getitem_deca_params (p : DecaImageParams) (min_val max_val : List ℚ)
    (bound : ℚ) : List ℚ :=
  let params := [concat_params p]
  let params_norm :=
    (normalize params (some min_val) (some max_val) (-bound) bound).1
  params_norm.headD []

section ExtremaLemmas

variable {R : ℚ → ℚ → Prop} {m : ℚ → ℚ → ℚ}

/-- Transitivity of `Forall₂` over a transitive relation. -/
lemma forall₂_trans_of (htrans : ∀ x y z : ℚ, R x y → R y z → R x z) :
    ∀ {xs ys zs : List ℚ}, List.Forall₂ R xs ys → List.Forall₂ R ys zs →
      List.Forall₂ R xs zs := by
  intro xs ys zs h1 h2
  induction h1 generalizing zs with
  | nil =>
    cases h2
    exact List.Forall₂.nil
  | cons hxy _ ih =>
    cases h2 with
    | cons hyz h2' => exact List.Forall₂.cons (htrans _ _ _ hxy hyz) (ih h2')

/-- Turning a `Forall₂` of the reversed relation around. -/
lemma forall₂_swap {S : ℚ → ℚ → Prop} :
    ∀ {xs ys : List ℚ}, List.Forall₂ (fun x y => S y x) xs ys →
      List.Forall₂ S ys xs := by
  intro xs ys h
  induction h with
  | nil => exact List.Forall₂.nil
  | cons hxy _ ih => exact List.Forall₂.cons hxy ih

/-- A pointwise `zipWith` is related to its left argument when the
operation is. -/
lemma forall₂_zipWith_left (h1 : ∀ x y, R (m x y) x) :
    ∀ (xs ys : List ℚ), xs.length ≤ ys.length →
      List.Forall₂ R (List.zipWith m xs ys) xs := by
  intro xs
  induction xs with
  | nil => intro ys _; exact List.Forall₂.nil
  | cons x xs ih =>
    intro ys hlen
    cases ys with
    | nil => simp at hlen
    | cons y ys =>
      exact List.Forall₂.cons (h1 x y) (ih ys (by simpa using hlen))

/-- A pointwise `zipWith` is related to its right argument when the
operation is. -/
lemma forall₂_zipWith_right (h2 : ∀ x y, R (m x y) y) :
    ∀ (xs ys : List ℚ), ys.length ≤ xs.length →
      List.Forall₂ R (List.zipWith m xs ys) ys := by
  intro xs
  induction xs with
  | nil =>
    intro ys hlen
    rw [List.length_nil, Nat.le_zero, List.length_eq_zero] at hlen
    subst hlen
    exact List.Forall₂.nil
  | cons x xs ih =>
    intro ys hlen
    cases ys with
    | nil => exact List.Forall₂.nil
    | cons y ys =>
      exact List.Forall₂.cons (h2 x y) (ih ys (by simpa using hlen))

/-- A common bound of both arguments bounds a pointwise `zipWith`. -/
lemma forall₂_zipWith_of_both (h3 : ∀ x y z : ℚ, R z x → R z y → R z (m x y)) :
    ∀ {w xs ys : List ℚ}, List.Forall₂ R w xs → List.Forall₂ R w ys →
      List.Forall₂ R w (List.zipWith m xs ys) := by
  intro w xs ys h1 h2
  induction h1 generalizing ys with
  | nil => exact List.Forall₂.nil
  | cons hwx _ ih =>
    cases h2 with
    | cons hwy h2' => exact List.Forall₂.cons (h3 _ _ _ hwx hwy) (ih h2')

/-- The pointwise fold driving `np_min_axis0`/`np_max_axis0` is related to
its accumulator. -/
lemma foldl_zipWith_forall₂_acc (h1 : ∀ x y, R (m x y) x) (hrefl : ∀ x, R x x)
    (htrans : ∀ x y z : ℚ, R x y → R y z → R x z) :
    ∀ (rs : List (List ℚ)) (acc : List ℚ), (∀ r ∈ rs, acc.length ≤ r.length) →
      List.Forall₂ R (rs.foldl (fun a row => List.zipWith m a row) acc) acc := by
  intro rs
  induction rs with
  | nil =>
    intro acc _
    exact List.forall₂_same.mpr (fun x _ => hrefl x)
  | cons r rs ih =>
    intro acc hlen
    have har : acc.length ≤ r.length := hlen r (by simp)
    have hzlen : (List.zipWith m acc r).length = acc.length := by
      rw [List.length_zipWith]
      exact min_eq_left har
    refine forall₂_trans_of htrans (ih (List.zipWith m acc r) ?_) ?_
    · intro r' hr'
      rw [hzlen]
      exact hlen r' (by simp [hr'])
    · exact forall₂_zipWith_left h1 acc r har

/-- The pointwise fold is related to its accumulator and to every row it
folds over, for rows of one common length. -/
lemma foldl_zipWith_forall₂_mem (h1 : ∀ x y, R (m x y) x)
    (h2 : ∀ x y, R (m x y) y) (hrefl : ∀ x, R x x)
    (htrans : ∀ x y z : ℚ, R x y → R y z → R x z) :
    ∀ (rs : List (List ℚ)) (acc r : List ℚ), r = acc ∨ r ∈ rs →
      (∀ r' ∈ rs, r'.length = acc.length) →
      List.Forall₂ R (rs.foldl (fun a row => List.zipWith m a row) acc) r := by
  intro rs
  induction rs with
  | nil =>
    intro acc r hr _
    rcases hr with hr | hr
    · subst hr
      exact List.forall₂_same.mpr (fun x _ => hrefl x)
    · simp at hr
  | cons r0 rs ih =>
    intro acc r hr hlen
    have h0 : r0.length = acc.length := hlen r0 (by simp)
    have hzlen : (List.zipWith m acc r0).length = acc.length := by
      rw [List.length_zipWith]
      exact min_eq_left (le_of_eq h0.symm)
    have hlen' : ∀ r' ∈ rs, r'.length = (List.zipWith m acc r0).length := by
      intro r' hr'
      rw [hzlen]
      exact hlen r' (by simp [hr'])
    have hacc : List.Forall₂ R
        (rs.foldl (fun a row => List.zipWith m a row) (List.zipWith m acc r0))
        (List.zipWith m acc r0) :=
      foldl_zipWith_forall₂_acc h1 hrefl htrans rs (List.zipWith m acc r0)
        (fun r' hr' => le_of_eq (hlen' r' hr').symm)
    rcases hr with hr | hr
    · subst hr
      exact forall₂_trans_of htrans hacc
        (forall₂_zipWith_left h1 _ r0 (le_of_eq h0.symm))
    · rcases List.mem_cons.mp hr with hr0 | hmem
      · subst hr0
        exact forall₂_trans_of htrans hacc
          (forall₂_zipWith_right h2 acc r (le_of_eq h0))
      · exact ih (List.zipWith m acc r0) r (Or.inr hmem) hlen'

/-- A common bound of the accumulator and of every row bounds the
pointwise fold. -/
lemma foldl_zipWith_forall₂_bound (h3 : ∀ x y z : ℚ, R z x → R z y → R z (m x y)) :
    ∀ (rs : List (List ℚ)) (acc w : List ℚ), List.Forall₂ R w acc →
      (∀ r ∈ rs, List.Forall₂ R w r) →
      List.Forall₂ R w (rs.foldl (fun a row => List.zipWith m a row) acc) := by
  intro rs
  induction rs with
  | nil => intro acc w hacc _; exact hacc
  | cons r0 rs ih =>
    intro acc w hacc hrows
    exact ih (List.zipWith m acc r0) w
      (forall₂_zipWith_of_both h3 hacc (hrows r0 (by simp)))
      (fun r hr => hrows r (by simp [hr]))

end ExtremaLemmas

/-- `np_min_axis0` is a componentwise lower bound of every row of a
uniform-length stack. -/
lemma np_min_axis0_le_row (rows : List (List ℚ)) (r : List ℚ) (L : ℕ)
    (hr : r ∈ rows) (hlen : ∀ r' ∈ rows, r'.length = L) :
    List.Forall₂ (· ≤ ·) (np_min_axis0 rows) r := by
  cases rows with
  | nil => simp at hr
  | cons r0 rs =>
    exact foldl_zipWith_forall₂_mem (R := (· ≤ ·)) (m := min)
      (fun x y => min_le_left x y) (fun x y => min_le_right x y)
      (fun x => le_refl x) (fun x y z h h' => le_trans h h') rs r0 r
      (List.mem_cons.mp hr)
      (fun r' hr' => ((hlen r' (by simp [hr'])).trans (hlen r0 (by simp)).symm))

/-- `np_min_axis0` is the greatest componentwise lower bound of a
nonempty stack. -/
lemma np_min_axis0_greatest (rows : List (List ℚ)) (w : List ℚ)
    (hne : rows ≠ []) (hw : ∀ r ∈ rows, List.Forall₂ (· ≤ ·) w r) :
    List.Forall₂ (· ≤ ·) w (np_min_axis0 rows) := by
  cases rows with
  | nil => exact absurd rfl hne
  | cons r0 rs =>
    exact foldl_zipWith_forall₂_bound (R := (· ≤ ·)) (m := min)
      (fun x y z h h' => le_min h h') rs r0 w (hw r0 (by simp))
      (fun r hr => hw r (by simp [hr]))

/-- Every row of a uniform-length stack is componentwise at most
`np_max_axis0`. -/
lemma row_le_np_max_axis0 (rows : List (List ℚ)) (r : List ℚ) (L : ℕ)
    (hr : r ∈ rows) (hlen : ∀ r' ∈ rows, r'.length = L) :
    List.Forall₂ (· ≤ ·) r (np_max_axis0 rows) := by
  cases rows with
  | nil => simp at hr
  | cons r0 rs =>
    have h : List.Forall₂ (fun x y => y ≤ x)
        (rs.foldl (fun a row => List.zipWith max a row) r0) r :=
      foldl_zipWith_forall₂_mem (R := fun x y => y ≤ x) (m := max)
        (fun x y => le_max_left x y) (fun x y => le_max_right x y)
        (fun x => le_refl x) (fun x y z h h' => le_trans h' h) rs r0 r
        (List.mem_cons.mp hr)
        (fun r' hr' => ((hlen r' (by simp [hr'])).trans (hlen r0 (by simp)).symm))
    exact forall₂_swap (S := (· ≤ ·)) h

/-- `np_max_axis0` is the least componentwise upper bound of a nonempty
stack. -/
lemma np_max_axis0_least (rows : List (List ℚ)) (w : List ℚ)
    (hne : rows ≠ []) (hw : ∀ r ∈ rows, List.Forall₂ (· ≤ ·) r w) :
    List.Forall₂ (· ≤ ·) (np_max_axis0 rows) w := by
  cases rows with
  | nil => exact absurd rfl hne
  | cons r0 rs =>
    have hw' : ∀ r ∈ r0 :: rs, List.Forall₂ (fun x y => y ≤ x) w r :=
      fun r hr => forall₂_swap (S := fun x y => y ≤ x) (hw r hr)
    have h : List.Forall₂ (fun x y => y ≤ x) w
        (rs.foldl (fun a row => List.zipWith max a row) r0) :=
      foldl_zipWith_forall₂_bound (R := fun x y => y ≤ x) (m := max)
        (fun x y z h h' => max_le h h') rs r0 w (hw' r0 (by simp))
        (fun r hr => hw' r (by simp [hr]))
    exact forall₂_swap (S := (· ≤ ·)) h

/-- Scalar round trip: denormalizing a normalized value restores it when
the coordinate extrema and the target interval are nondegenerate. -/
lemma denormalize_normalize_scalar (x mv Mv a b : ℚ) (hm : mv < Mv)
    (hab : a < b) :
    ((b - a) * (x - mv) / (Mv - mv) + a - a) * (Mv - mv) / (b - a) + mv = x := by
  have hMm : Mv - mv ≠ 0 := sub_ne_zero.mpr (ne_of_gt hm)
  have hba : b - a ≠ 0 := sub_ne_zero.mpr (ne_of_gt hab)
  field_simp
  ring

/-- Scalar round trip in the other direction. -/
lemma normalize_denormalize_scalar (y mv Mv a b : ℚ) (hm : mv < Mv)
    (hab : a < b) :
    (b - a) * ((y - a) * (Mv - mv) / (b - a) + mv - mv) / (Mv - mv) + a = y := by
  have hMm : Mv - mv ≠ 0 := sub_ne_zero.mpr (ne_of_gt hm)
  have hba : b - a ≠ 0 := sub_ne_zero.mpr (ne_of_gt hab)
  field_simp
  ring

/-- Row-level round trip: `denormalize` after `normalize` with the same
nondegenerate parameters restores the row. -/
lemma denormalize_normalize_row (r : List ℚ) :
    ∀ (mn mx : List ℚ) (a b : ℚ), List.Forall₂ (· < ·) mn mx →
      r.length ≤ mn.length → a < b →
      denormalize_row (normalize_row r mn mx a b) mn mx a b = r := by
  induction r with
  | nil => intro mn mx a b _ _ _; simp [normalize_row, denormalize_row]
  | cons x r ih =>
    intro mn mx a b hmm hlen hab
    cases hmm with
    | nil => simp at hlen
    | @cons mv Mv mn' mx' hm hmm' =>
      simp only [normalize_row, denormalize_row, List.zip_cons_cons,
        List.zipWith_cons_cons] at *
      exact congrArg₂ List.cons
        (denormalize_normalize_scalar x mv Mv a b hm hab)
        (ih mn' mx' a b hmm' (by simpa using hlen) hab)

/-- Row-level round trip in the other direction. -/
lemma normalize_denormalize_row (r : List ℚ) :
    ∀ (mn mx : List ℚ) (a b : ℚ), List.Forall₂ (· < ·) mn mx →
      r.length ≤ mn.length → a < b →
      normalize_row (denormalize_row r mn mx a b) mn mx a b = r := by
  induction r with
  | nil => intro mn mx a b _ _ _; simp [normalize_row, denormalize_row]
  | cons y r ih =>
    intro mn mx a b hmm hlen hab
    cases hmm with
    | nil => simp at hlen
    | @cons mv Mv mn' mx' hm hmm' =>
      simp only [normalize_row, denormalize_row, List.zip_cons_cons,
        List.zipWith_cons_cons] at *
      exact congrArg₂ List.cons
        (normalize_denormalize_scalar y mv Mv a b hm hab)
        (ih mn' mx' a b hmm' (by simpa using hlen) hab)

/-- Scalar range: the normalization map sends a value between its
coordinate extrema into the target interval `[a, b]`. -/
lemma normalize_scalar_range (x mv Mv a b : ℚ) (h1 : mv ≤ x) (h2 : x ≤ Mv)
    (hm : mv < Mv) (hab : a ≤ b) :
    a ≤ (b - a) * (x - mv) / (Mv - mv) + a ∧
      (b - a) * (x - mv) / (Mv - mv) + a ≤ b := by
  have hMm : (0 : ℚ) < Mv - mv := sub_pos.mpr hm
  have ht0 : (0 : ℚ) ≤ (x - mv) / (Mv - mv) :=
    div_nonneg (by linarith) hMm.le
  have ht1 : (x - mv) / (Mv - mv) ≤ 1 := (div_le_one hMm).mpr (by linarith)
  have hba : (0 : ℚ) ≤ b - a := by linarith
  have hlo : (0 : ℚ) ≤ (b - a) * ((x - mv) / (Mv - mv)) := mul_nonneg hba ht0
  have hhi : (b - a) * ((x - mv) / (Mv - mv)) ≤ (b - a) * 1 :=
    mul_le_mul_of_nonneg_left ht1 hba
  rw [mul_div_assoc]
  constructor <;> linarith

/-- Row range: normalizing a row lying between the extrema rows lands
every coordinate in `[a, b]`. -/
lemma normalize_row_mem_range (r : List ℚ) :
    ∀ (mn mx : List ℚ) (a b : ℚ), List.Forall₂ (· ≤ ·) mn r →
      List.Forall₂ (· ≤ ·) r mx → List.Forall₂ (· < ·) mn mx → a ≤ b →
      ∀ y ∈ normalize_row r mn mx a b, a ≤ y ∧ y ≤ b := by
  induction r with
  | nil => intro mn mx a b _ _ _ _ y hy; simp [normalize_row] at hy
  | cons x r ih =>
    intro mn mx a b h1 h2 hmm hab y hy
    cases h1 with
    | @cons mv x' mn' r' hmx h1' =>
      cases h2 with
      | @cons _ Mv _ mx' hxM h2' =>
        cases hmm with
        | cons hm hmm' =>
          simp only [normalize_row, List.zip_cons_cons,
            List.zipWith_cons_cons, List.mem_cons] at hy
          rcases hy with hy | hy
          · subst hy
            exact normalize_scalar_range x mv Mv a b hmx hxM hm hab
          · exact ih mn' mx' a b h1' h2' hmm' hab y hy

/-- Scalar pixel range: an 8-bit value rescaled by `p / 127.5 - 1` lies in
`[-1, 1]`. -/
lemma pixel_rescale_range (p : ℚ) (h0 : 0 ≤ p) (h255 : p ≤ 255) :
    -1 ≤ p / 127.5 - 1 ∧ p / 127.5 - 1 ≤ 1 := by
  have hpos : (0 : ℚ) < 127.5 := by norm_num
  have hlo : (0 : ℚ) ≤ p / 127.5 := div_nonneg h0 hpos.le
  have hhi : p / 127.5 ≤ 2 := by
    rw [div_le_iff₀ hpos]
    linarith
  constructor <;> linarith

/-- With both extrema given, `normalize` maps each row through
`normalize_row`. -/
lemma normalize_some_some (arr : List (List ℚ)) (mn mx : List ℚ) (a b : ℚ) :
    normalize arr (some mn) (some mx) a b =
      (arr.map (fun row => normalize_row row mn mx a b), mn, mx) := by
  simp [normalize]

/-- With both extrema left `None`, `normalize` computes them as the
columnwise extrema of the stack. -/
lemma normalize_none_none (arr : List (List ℚ)) (a b : ℚ) :
    normalize arr none none a b =
      (arr.map (fun row => normalize_row row (np_min_axis0 arr) (np_max_axis0 arr) a b),
        np_min_axis0 arr, np_max_axis0 arr) := by
  simp [normalize]

/-- The stored `min_val` statistic is the columnwise minimum of the
parameter stack. -/
lemma load_deca_min_val_eq (imgs : List DecaImageParams) (bound : ℚ) :
    load_deca_min_val imgs bound = np_min_axis0 (stack_all_params imgs) := by
  simp [load_deca_min_val, normalize_none_none]

/-- The stored `max_val` statistic is the columnwise maximum of the
parameter stack. -/
lemma load_deca_max_val_eq (imgs : List DecaImageParams) (bound : ℚ) :
    load_deca_max_val imgs bound = np_max_axis0 (stack_all_params imgs) := by
  simp [load_deca_max_val, normalize_none_none]

/-- Length of a normalized row. -/
lemma normalize_row_length (r mn mx : List ℚ) (a b : ℚ) :
    (normalize_row r mn mx a b).length = r.length ⊓ (mn.length ⊓ mx.length) := by
  simp [normalize_row]

/-- C1: the spec claims that for every configuration whose respacing token
is non-empty, `create_gaussian_diffusion` successfully returns a
`SpacedDiffusion`.  The code cannot: lines 127-128 of `script_util.py`
assign the local `timestep_respacing` only when `cfg.timestep_respacing`
is falsy, so every truthy (non-empty) token leaves the local unassigned
and line 130 raises `UnboundLocalError` before `space_timesteps` or
`SpacedDiffusion` is ever reached.  This theorem evaluates the embedded
code at a concrete failing input (a valid linear schedule over 10 steps
respaced to "5"). -/
theorem C1_nonempty_respacing_raises_UnboundLocalError :
    create_gaussian_diffusion
      { noise_schedule := "linear", diffusion_steps := 10, use_kl := false,
        rescale_learned_sigmas := false, timestep_respacing := "5",
        predict_xstart := false, sigma_small := false, learn_sigma := false,
        rescale_timesteps := false } =
      .error .unboundLocalError := rfl

/-- C2: `normalize` and `denormalize` with identical parameters are
mutually inverse — exactly, under the exact rational arithmetic of this
embedding — for every stack `x`, componentwise `min_val < max_val`, and
`a < b`. -/
theorem C2_normalize_denormalize_roundtrip (x : List (List ℚ))
    (mn mx : List ℚ) (a b : ℚ)
    (hmm : List.Forall₂ (· < ·) mn mx) (hab : a < b)
    (hlen : ∀ r ∈ x, r.length = mn.length) :
    denormalize (normalize x (some mn) (some mx) a b).1 mn mx a b = x ∧
    (normalize (denormalize x mn mx a b) (some mn) (some mx) a b).1 = x := by
  have hmnmx : mn.length = mx.length := List.Forall₂.length_eq hmm
  constructor
  · rw [normalize_some_some, denormalize, List.map_map]
    refine (List.map_congr_left ?_).trans (List.map_id x)
    intro r hr
    exact denormalize_normalize_row r mn mx a b hmm (le_of_eq (hlen r hr)) hab
  · rw [denormalize, normalize_some_some, List.map_map]
    refine (List.map_congr_left ?_).trans (List.map_id x)
    intro r hr
    have hdlen : (denormalize_row r mn mx a b).length ≤ mn.length := by
      simp only [denormalize_row, List.length_zipWith, List.length_zip]
      omega
    show normalize_row (denormalize_row r mn mx a b) mn mx a b = r
    have h := normalize_denormalize_row r mn mx a b hmm (le_of_eq (hlen r hr)) hab
    exact h

/-- C2 witness: the round trip at the concrete stack `[[1]]`,
extrema `[0] < [2]`, interval `[-1, 1]`. -/
theorem C2_normalize_denormalize_roundtrip_witness :
    denormalize (normalize [[(1 : ℚ)]] (some [0]) (some [2]) (-1) 1).1
        [0] [2] (-1) 1 = [[(1 : ℚ)]] ∧
    (normalize (denormalize [[(1 : ℚ)]] [0] [2] (-1) 1)
        (some [0]) (some [2]) (-1) 1).1 = [[(1 : ℚ)]] :=
  C2_normalize_denormalize_roundtrip [[(1 : ℚ)]] [0] [2] (-1) 1
    (List.Forall₂.cons (by norm_num) List.Forall₂.nil) (by norm_num)
    (by intro r hr; rw [List.mem_singleton] at hr; subst hr; rfl)

/-- C3 counterexample: the claim says all four loss types, `KL` included,
are selectable from the flat configuration.  The selection of
`script_util.py` lines 121-126 is refuted at every one of its four
concrete flag settings: none yields plain `KL`. -/
theorem C3_counterexample_KL_unreachable :
    select_loss_type true true ≠ LossType.KL ∧
    select_loss_type true false ≠ LossType.KL ∧
    select_loss_type false true ≠ LossType.KL ∧
    select_loss_type false false ≠ LossType.KL := by
  decide

/-- C3 amended: only three of the four loss types are selectable —
`use_kl` yields `RESCALED_KL`, else `rescale_learned_sigmas` yields
`RESCALED_MSE`, else `MSE`; no configuration makes
`create_gaussian_diffusion` build with plain `KL`. -/
theorem C3_amended_selectable_loss_types :
    (∃ cfg d, create_gaussian_diffusion cfg = .ok d ∧
      d.loss_type = LossType.MSE) ∧
    (∃ cfg d, create_gaussian_diffusion cfg = .ok d ∧
      d.loss_type = LossType.RESCALED_MSE) ∧
    (∃ cfg d, create_gaussian_diffusion cfg = .ok d ∧
      d.loss_type = LossType.RESCALED_KL) ∧
    (∀ (cfg : DiffusionCfg) (d : SpacedDiffusionDesc),
      create_gaussian_diffusion cfg = .ok d → d.loss_type ≠ LossType.KL) := by
  refine ⟨?_, ?_, ?_, ?_⟩
  · exact ⟨{ noise_schedule := "linear", diffusion_steps := 4, use_kl := false,
             rescale_learned_sigmas := false, timestep_respacing := "",
             predict_xstart := false, sigma_small := false, learn_sigma := false,
             rescale_timesteps := false }, _, rfl, rfl⟩
  · exact ⟨{ noise_schedule := "linear", diffusion_steps := 4, use_kl := false,
             rescale_learned_sigmas := true, timestep_respacing := "",
             predict_xstart := false, sigma_small := false, learn_sigma := false,
             rescale_timesteps := false }, _, rfl, rfl⟩
  · exact ⟨{ noise_schedule := "linear", diffusion_steps := 4, use_kl := true,
             rescale_learned_sigmas := false, timestep_respacing := "",
             predict_xstart := false, sigma_small := false, learn_sigma := false,
             rescale_timesteps := false }, _, rfl, rfl⟩
  intro cfg d h
  unfold create_gaussian_diffusion at h
  split at h
  · simp at h
  · split at h
    · simp at h
    · split at h
      · simp at h
      · rw [Except.ok.injEq] at h
        subst h
        cases hu : cfg.use_kl <;> cases hr : cfg.rescale_learned_sigmas <;>
          simp [select_loss_type, hu, hr]

/-- C4: the `'normalize'` statistics stored by `load_deca_params` are the
componentwise extrema of the stacked concatenated `[shape, pose, exp, cam]`
rows (lower/upper bound of every row, and tightest such bounds), and —
assuming componentwise `min_val < max_val` — normalizing any stacked row
with `a = -bound, b = bound` lands every coordinate in `[-bound, bound]`. -/
theorem C4_load_deca_params_stats_and_range (imgs : List DecaImageParams)
    (bound : ℚ) (v : List ℚ) (L : ℕ)
    (hb : 0 ≤ bound)
    (hv : v ∈ stack_all_params imgs)
    (hlen : ∀ r ∈ stack_all_params imgs, r.length = L)
    (hmm : List.Forall₂ (· < ·) (load_deca_min_val imgs bound)
      (load_deca_max_val imgs bound)) :
    (∀ r ∈ stack_all_params imgs,
      List.Forall₂ (· ≤ ·) (load_deca_min_val imgs bound) r ∧
      List.Forall₂ (· ≤ ·) r (load_deca_max_val imgs bound)) ∧
    (∀ w, (∀ r ∈ stack_all_params imgs, List.Forall₂ (· ≤ ·) w r) →
      List.Forall₂ (· ≤ ·) w (load_deca_min_val imgs bound)) ∧
    (∀ w, (∀ r ∈ stack_all_params imgs, List.Forall₂ (· ≤ ·) r w) →
      List.Forall₂ (· ≤ ·) (load_deca_max_val imgs bound) w) ∧
    (∀ row ∈ (normalize [v] (some (load_deca_min_val imgs bound))
        (some (load_deca_max_val imgs bound)) (-bound) bound).1,
      ∀ y ∈ row, -bound ≤ y ∧ y ≤ bound) := by
  have hne : stack_all_params imgs ≠ [] := by
    intro hemp
    rw [hemp] at hv
    simp at hv
  rw [load_deca_min_val_eq, load_deca_max_val_eq] at *
  have hbound : ∀ r ∈ stack_all_params imgs,
      List.Forall₂ (· ≤ ·) (np_min_axis0 (stack_all_params imgs)) r ∧
      List.Forall₂ (· ≤ ·) r (np_max_axis0 (stack_all_params imgs)) :=
    fun r hr => ⟨np_min_axis0_le_row _ r L hr hlen,
      row_le_np_max_axis0 _ r L hr hlen⟩
  refine ⟨hbound, fun w hw => np_min_axis0_greatest _ w hne hw,
    fun w hw => np_max_axis0_least _ w hne hw, ?_⟩
  intro row hrow y hy
  rw [normalize_some_some] at hrow
  simp only [List.map_cons, List.map_nil, List.mem_singleton] at hrow
  subst hrow
  exact normalize_row_mem_range v _ _ (-bound) bound (hbound v hv).1
    (hbound v hv).2 hmm (by linarith) y hy

/-- C4 witness: two one-coordinate images with parameter rows `[0]` and
`[2]`, `bound = 1`. -/
theorem C4_load_deca_params_stats_and_range_witness :
    (∀ r ∈ stack_all_params
        [⟨[0], [], [], []⟩, ⟨[2], [], [], []⟩],
      List.Forall₂ (· ≤ ·)
        (load_deca_min_val [⟨[0], [], [], []⟩, ⟨[2], [], [], []⟩] 1) r ∧
      List.Forall₂ (· ≤ ·) r
        (load_deca_max_val [⟨[0], [], [], []⟩, ⟨[2], [], [], []⟩] 1)) ∧
    (∀ w, (∀ r ∈ stack_all_params
        [⟨[0], [], [], []⟩, ⟨[2], [], [], []⟩], List.Forall₂ (· ≤ ·) w r) →
      List.Forall₂ (· ≤ ·) w
        (load_deca_min_val [⟨[0], [], [], []⟩, ⟨[2], [], [], []⟩] 1)) ∧
    (∀ w, (∀ r ∈ stack_all_params
        [⟨[0], [], [], []⟩, ⟨[2], [], [], []⟩], List.Forall₂ (· ≤ ·) r w) →
      List.Forall₂ (· ≤ ·)
        (load_deca_max_val [⟨[0], [], [], []⟩, ⟨[2], [], [], []⟩] 1) w) ∧
    (∀ row ∈ (normalize [[0]]
        (some (load_deca_min_val [⟨[0], [], [], []⟩, ⟨[2], [], [], []⟩] 1))
        (some (load_deca_max_val [⟨[0], [], [], []⟩, ⟨[2], [], [], []⟩] 1))
        (-1) 1).1,
      ∀ y ∈ row, -1 ≤ y ∧ y ≤ 1) :=
  C4_load_deca_params_stats_and_range
    [⟨[0], [], [], []⟩, ⟨[2], [], [], []⟩] 1 [0] 1 (by norm_num)
    (by simp [stack_all_params, concat_params])
    (by
      intro r hr
      simp only [stack_all_params, concat_params, List.map_cons, List.map_nil,
        List.mem_cons, List.not_mem_nil, or_false] at hr
      rcases hr with hr | hr <;> subst hr <;> rfl)
    (by
      rw [load_deca_min_val_eq, load_deca_max_val_eq]
      simp only [stack_all_params, concat_params, List.map_cons, List.map_nil]
      show List.Forall₂ (· < ·) (List.zipWith min [(0 : ℚ)] [2])
        (List.zipWith max [(0 : ℚ)] [2])
      rw [List.zipWith_cons_cons, List.zipWith_cons_cons,
        min_eq_left (by norm_num : (0 : ℚ) ≤ 2),
        max_eq_right (by norm_num : (0 : ℚ) ≤ 2)]
      exact List.Forall₂.cons (by norm_num) List.Forall₂.nil)

/-- C5: for 8-bit augmented source images (pixel values in `[0, 255]`), the
image tensor returned by `__getitem__` is the channel-first transpose of
the `pixel / 127.5 - 1` rescale — of the raw image in mode `"raw"`, of the
channel concatenation with the uv-detail-normals image in mode
`"raw+uvdn"` — and every entry lies in `[-1, 1]`. -/
theorem C5_getitem_image_range_and_layout (in_image : String)
    (raw_img uvdn : ImgArr) (c_raw : ℕ) (out : ImgArr)
    (hraw : ∀ h w c, 0 ≤ raw_img h w c ∧ raw_img h w c ≤ 255)
    (huvdn : ∀ h w c, 0 ≤ uvdn h w c ∧ uvdn h w c ≤ 255)
    (hok : getitem_image in_image raw_img uvdn c_raw = .ok out) :
    (∀ c h w, -1 ≤ out c h w ∧ out c h w ≤ 1) ∧
    (in_image = "raw" → out = np_transpose_201 (img_rescale raw_img)) ∧
    (in_image = "raw+uvdn" → out = np_transpose_201
      (np_concatenate_axis2 (img_rescale raw_img) (img_rescale uvdn) c_raw)) := by
  by_cases h1 : in_image = "raw"
  · rw [getitem_image, if_pos h1, Except.ok.injEq] at hok
    subst hok
    refine ⟨?_, fun _ => rfl, ?_⟩
    · intro c h w
      exact pixel_rescale_range (raw_img h w c) (hraw h w c).1 (hraw h w c).2
    · intro h2
      rw [h1] at h2
      exact absurd h2 (by decide)
  · by_cases h2 : in_image = "raw+uvdn"
    · rw [getitem_image, if_neg h1, if_pos h2, Except.ok.injEq] at hok
      subst hok
      refine ⟨?_, ?_, fun _ => rfl⟩
      · intro c h w
        by_cases hc : c < c_raw
        · simp only [np_transpose_201, np_concatenate_axis2, img_rescale,
            if_pos hc]
          exact pixel_rescale_range (raw_img h w c) (hraw h w c).1 (hraw h w c).2
        · simp only [np_transpose_201, np_concatenate_axis2, img_rescale,
            if_neg hc]
          exact pixel_rescale_range (uvdn h w (c - c_raw))
            (huvdn h w (c - c_raw)).1 (huvdn h w (c - c_raw)).2
      · intro h1'
        rw [h2] at h1'
        exact absurd h1' (by decide)
    · rw [getitem_image, if_neg h1, if_neg h2] at hok
      simp at hok

/-- C5 witness: mode `"raw"` with all-zero pixel arrays. -/
theorem C5_getitem_image_range_and_layout_witness :
    (∀ c h w, -1 ≤ np_transpose_201 (img_rescale (fun _ _ _ => (0 : ℚ))) c h w ∧
      np_transpose_201 (img_rescale (fun _ _ _ => (0 : ℚ))) c h w ≤ 1) ∧
    ("raw" = "raw" → np_transpose_201 (img_rescale (fun _ _ _ => (0 : ℚ))) =
      np_transpose_201 (img_rescale (fun _ _ _ => (0 : ℚ)))) ∧
    ("raw" = "raw+uvdn" → np_transpose_201 (img_rescale (fun _ _ _ => (0 : ℚ))) =
      np_transpose_201 (np_concatenate_axis2
        (img_rescale (fun _ _ _ => (0 : ℚ)))
        (img_rescale (fun _ _ _ => (0 : ℚ))) 3)) :=
  C5_getitem_image_range_and_layout "raw" (fun _ _ _ => (0 : ℚ))
    (fun _ _ _ => (0 : ℚ)) 3 (np_transpose_201 (img_rescale (fun _ _ _ => (0 : ℚ))))
    (fun _ _ _ => by norm_num) (fun _ _ _ => by norm_num) rfl

/-- C6: the conditioning vector of `__getitem__` is exactly the
normalization — with the supplier's global extrema and `a = -bound,
b = bound` — of the concatenation, in the order shape, pose, exp, cam, of
the image's DECA parameters, and its dimensionality is the sum of the four
group dimensionalities. -/
theorem C6_conditioning_vector_is_normalized_concat (p : DecaImageParams)
    (mn mx : List ℚ) (bound : ℚ)
    (hmn : mn.length =
      p.shape.length + p.pose.length + p.exp.length + p.cam.length)
    (hmx : mx.length =
      p.shape.length + p.pose.length + p.exp.length + p.cam.length) :
    getitem_deca_params p mn mx bound =
      normalize_row (p.shape ++ p.pose ++ p.exp ++ p.cam) mn mx (-bound) bound ∧
    (getitem_deca_params p mn mx bound).length =
      p.shape.length + p.pose.length + p.exp.length + p.cam.length := by
  have heq : getitem_deca_params p mn mx bound =
      normalize_row (p.shape ++ p.pose ++ p.exp ++ p.cam) mn mx (-bound) bound := by
    rw [getitem_deca_params, normalize_some_some]
    simp [concat_params]
  refine ⟨heq, ?_⟩
  rw [heq, normalize_row_length]
  simp only [List.length_append]
  omega

/-- C6 witness: one-coordinate parameter groups with matching extrema
rows of length 4. -/
theorem C6_conditioning_vector_is_normalized_concat_witness :
    getitem_deca_params ⟨[1], [2], [3], [4]⟩ [0, 0, 0, 0] [8, 8, 8, 8] 1 =
      normalize_row ([(1 : ℚ)] ++ [2] ++ [3] ++ [4]) [0, 0, 0, 0] [8, 8, 8, 8]
        (-1) 1 ∧
    (getitem_deca_params ⟨[1], [2], [3], [4]⟩ [0, 0, 0, 0] [8, 8, 8, 8] 1).length =
      [(1 : ℚ)].length + [(2 : ℚ)].length + [(3 : ℚ)].length + [(4 : ℚ)].length :=
  C6_conditioning_vector_is_normalized_concat ⟨[1], [2], [3], [4]⟩
    [0, 0, 0, 0] [8, 8, 8, 8] 1 rfl rfl

/-- C7: for each of the claim's three configuration scenarios —
`create_model` with an architecture tag outside `{"UNet", "UNetCond"}`,
`create_param_model` without `deca_cond` and a tag outside
`{"magenta", "autoenc"}`, and `create_model` with an empty `channel_mult`
and an image size outside `{512, 256, 128, 64}` — construction fails with
an error (the spec's construction-time `ConfigurationError`; concretely a
`NotImplementedError` or `ValueError`) before any model is built. -/
theorem C7_unsupported_architecture_fails_fast :
    (∀ cfg : ImgModelCfg, cfg.arch ≠ "UNet" → cfg.arch ≠ "UNetCond" →
      ∃ e, create_model cfg = .error e) ∧
    (∀ cfg : ParamModelCfg, cfg.deca_cond = false → cfg.arch ≠ "magenta" →
      cfg.arch ≠ "autoenc" →
      create_param_model cfg = .error .notImplementedError) ∧
    (∀ cfg : ImgModelCfg, cfg.channel_mult = "" → cfg.image_size ≠ 512 →
      cfg.image_size ≠ 256 → cfg.image_size ≠ 128 → cfg.image_size ≠ 64 →
      create_model cfg = .error .valueError) := by
  refine ⟨?_, ?_, ?_⟩
  · intro cfg h1 h2
    cases hc : parse_channel_mult cfg with
    | error e => exact ⟨e, by unfold create_model; rw [hc]⟩
    | ok cm =>
      cases ha : parse_attention_ds cfg with
      | error e => exact ⟨e, by unfold create_model; rw [hc, ha]⟩
      | ok ads =>
        refine ⟨.notImplementedError, ?_⟩
        unfold create_model
        rw [hc, ha]
        simp [h1, h2]
  · intro cfg h0 h1 h2
    unfold create_param_model
    rw [h0]
    rw [if_neg (by simp), if_neg h1, if_neg h2]
  · intro cfg h0 h512 h256 h128 h64
    have hpc : parse_channel_mult cfg = .error .valueError := by
      rw [parse_channel_mult, if_pos h0, if_neg h512, if_neg h256,
        if_neg h128, if_neg h64]
    unfold create_model
    rw [hpc]

/-- C7 witness: the three scenarios at concrete configurations. -/
theorem C7_unsupported_architecture_fails_fast_witness :
    (∃ e, create_model
      { image_size := 64, arch := "vit", channel_mult := "1,2",
        attention_resolutions := "16", in_channels := 3, num_channels := 8,
        out_channels := 3, num_res_blocks := 1, dropout := 0,
        class_cond := false, use_checkpoint := false, num_heads := 1,
        num_head_channels := -1, num_heads_upsample := -1,
        use_scale_shift_norm := false, resblock_updown := false,
        use_new_attention_order := false, condition_dim := 0 } = .error e) ∧
    create_param_model
      { deca_cond := false, arch := "mlp", in_channels := 159,
        out_channels := 159, model_channels := 2048, num_layers := 2,
        use_checkpoint := false, use_scale_shift_norm := false } =
      .error .notImplementedError ∧
    create_model
      { image_size := 32, arch := "UNet", channel_mult := "",
        attention_resolutions := "16", in_channels := 3, num_channels := 8,
        out_channels := 3, num_res_blocks := 1, dropout := 0,
        class_cond := false, use_checkpoint := false, num_heads := 1,
        num_head_channels := -1, num_heads_upsample := -1,
        use_scale_shift_norm := false, resblock_updown := false,
        use_new_attention_order := false, condition_dim := 0 } =
      .error .valueError :=
  ⟨C7_unsupported_architecture_fails_fast.1 _ (by decide) (by decide),
    C7_unsupported_architecture_fails_fast.2.1 _ rfl (by decide) (by decide),
    C7_unsupported_architecture_fails_fast.2.2 _ rfl (by decide) (by decide)
      (by decide) (by decide)⟩

/-- C8: an `in_image` mode outside `{"raw", "raw+uvdn"}` makes the
input-composition branch of `__getitem__` raise `NotImplementedError`
(line 224), not fall back to any default composition. -/
theorem C8_unsupported_in_image_raises_NotImplementedError (in_image : String)
    (raw_img uvdn : ImgArr) (c_raw : ℕ)
    (h1 : in_image ≠ "raw") (h2 : in_image ≠ "raw+uvdn") :
    getitem_image in_image raw_img uvdn c_raw = .error .notImplementedError := by
  rw [getitem_image, if_neg h1, if_neg h2]

/-- C8 witness: the unsupported mode `"uvdn"`. -/
theorem C8_unsupported_in_image_raises_NotImplementedError_witness :
    getitem_image "uvdn" (fun _ _ _ => (0 : ℚ)) (fun _ _ _ => (0 : ℚ)) 3 =
      .error .notImplementedError :=
  C8_unsupported_in_image_raises_NotImplementedError "uvdn" _ _ 3
    (by decide) (by decide)

/-- C9: whenever `create_gaussian_diffusion` succeeds, the enum fields of
the built diffusion follow the fixed precedences of lines 121-126 and
132-143: `predict_xstart` selects `START_X` over the default `EPSILON`;
`learn_sigma` forces `LEARNED_RANGE` regardless of `sigma_small`, which
otherwise picks `FIXED_SMALL` over `FIXED_LARGE`; `use_kl` forces
`RESCALED_KL` regardless of `rescale_learned_sigmas`, which otherwise
picks `RESCALED_MSE` over `MSE`. -/
theorem C9_flag_to_enum_precedence (cfg : DiffusionCfg)
    (d : SpacedDiffusionDesc) (h : create_gaussian_diffusion cfg = .ok d) :
    d.model_mean_type =
      (if cfg.predict_xstart then ModelMeanType.START_X
       else ModelMeanType.EPSILON) ∧
    d.model_var_type =
      (if cfg.learn_sigma then ModelVarType.LEARNED_RANGE
       else if cfg.sigma_small then ModelVarType.FIXED_SMALL
       else ModelVarType.FIXED_LARGE) ∧
    d.loss_type =
      (if cfg.use_kl then LossType.RESCALED_KL
       else if cfg.rescale_learned_sigmas then LossType.RESCALED_MSE
       else LossType.MSE) := by
  unfold create_gaussian_diffusion at h
  split at h
  · simp at h
  · split at h
    · simp at h
    · split at h
      · simp at h
      · rw [Except.ok.injEq] at h
        subst h
        refine ⟨?_, ?_, ?_⟩
        · cases hp : cfg.predict_xstart <;> simp [hp]
        · cases hl : cfg.learn_sigma <;> cases hs : cfg.sigma_small <;>
            simp [hl, hs]
        · cases hu : cfg.use_kl <;> cases hr : cfg.rescale_learned_sigmas <;>
            simp [select_loss_type, hu, hr]

/-- C9 witness: a configuration with every overriding flag set builds with
`START_X`, `LEARNED_RANGE`, `RESCALED_KL`. -/
theorem C9_flag_to_enum_precedence_witness :
    ∃ d, create_gaussian_diffusion
      { noise_schedule := "linear", diffusion_steps := 4, use_kl := true,
        rescale_learned_sigmas := true, timestep_respacing := "",
        predict_xstart := true, sigma_small := true, learn_sigma := true,
        rescale_timesteps := false } = .ok d ∧
      d.model_mean_type = ModelMeanType.START_X ∧
      d.model_var_type = ModelVarType.LEARNED_RANGE ∧
      d.loss_type = LossType.RESCALED_KL := by
  refine ⟨_, rfl, ?_⟩
  have h := C9_flag_to_enum_precedence
    { noise_schedule := "linear", diffusion_steps := 4, use_kl := true,
      rescale_learned_sigmas := true, timestep_respacing := "",
      predict_xstart := true, sigma_small := true, learn_sigma := true,
      rescale_timesteps := false } _ rfl
  simpa using h

/-- C10: a `resize_mode` outside `{"random_crop", "center_crop", "resize"}`,
or an `augment_mode` outside `{"random_flip", "flip", None}`, reaches an
`else` branch of `augmentation` that executes `raise NotImplemented`
(lines 237 and 246), which the interpreter surfaces as a `TypeError` — the
`NotImplemented` constant is not an exception — rather than a
`NotImplementedError`-class error. -/
theorem C10_augmentation_raise_NotImplemented_is_TypeError {Pil : Type}
    (resize_mode : String) (augment_mode : Option String)
    (random_crop_arr center_crop_arr resize_arr : Pil → ℕ → ImgArr)
    (W : ℕ) (rand_lt_half : Bool) (resolution : ℕ) (pil_image : Pil)
    (h : (resize_mode ≠ "random_crop" ∧ resize_mode ≠ "center_crop" ∧
            resize_mode ≠ "resize") ∨
         (augment_mode ≠ some "random_flip" ∧ augment_mode ≠ some "flip" ∧
            augment_mode ≠ none)) :
    augmentation resize_mode augment_mode random_crop_arr center_crop_arr
      resize_arr W rand_lt_half resolution pil_image = .error .typeError := by
  rcases h with ⟨n1, n2, n3⟩ | ⟨m1, m2, m3⟩
  · rw [augmentation, if_neg n1, if_neg n2, if_neg n3]
  · unfold augmentation
    split
    · rfl
    · rw [if_neg (by simp [m1]), if_neg (by simp [m2]), if_neg (by simp [m3])]

/-- C10 witness: the unsupported resize mode `"pad"` with no flip
augmentation. -/
theorem C10_augmentation_raise_NotImplemented_is_TypeError_witness :
    augmentation "pad" none (fun _ _ _ _ _ => (0 : ℚ))
      (fun _ _ _ _ _ => (0 : ℚ)) (fun _ _ _ _ _ => (0 : ℚ)) 4 false 4 () =
      .error .typeError :=
  C10_augmentation_raise_NotImplemented_is_TypeError "pad" none _ _ _ 4 false 4 ()
    (Or.inl ⟨by decide, by decide, by decide⟩)

end GuidedDiffusion
